import Mathlib

/-!
# Verification of agl-video-utils

Shallow embedding of `converter.py` (class `VideoConverter`) and
`extractor.py` (class `FrameExtractor`) from the agl-video-utils
repository, together with proofs settling the specification claims.

Python dictionaries are modelled as association lists over a JSON-like
value type `JVal`; a Python expression that can raise (`d[k]` raising
`KeyError`, list indexing raising `IndexError`, ...) is modelled in the
`Except String` monad, the error string recording the kind of exception.
-/

set_option autoImplicit false

namespace AglVideoUtils

/-- JSON-like values, the shape of `ffmpeg.probe` results and of the
dictionaries built from them. -/
inductive JVal where
  | null : JVal
  | str (s : String) : JVal
  | num (n : Nat) : JVal
  | arr (xs : List JVal) : JVal
  | obj (kvs : List (String × JVal)) : JVal

/-- Python `d[k]`: succeeds when `d` is a dict containing key `k`,
raises `KeyError` when the key is absent and `TypeError` when `d` is not
a dict. -/
def jget (v : JVal) (k : String) : Except String JVal :=
  match v with
  | .obj kvs =>
    match kvs.lookup k with
    | some x => .ok x
    | none => .error ("KeyError: " ++ k)
  | _ => .error "TypeError: not subscriptable"

/-- Python `k in d`: membership test on a dict; raises `TypeError` on a
non-dict. -/
def jhas (v : JVal) (k : String) : Except String Bool :=
  match v with
  | .obj kvs => .ok (kvs.lookup k).isSome
  | _ => .error "TypeError: argument of type is not a container"

/-- Python `d[k] if k in d else None`, the optional-field pattern used
throughout `get_simplified_probe`. -/
def optField (v : JVal) (k : String) : Except String JVal := do
  let b ← jhas v k
  if b then jget v k else pure .null

/-- The per-stream body of the `for stream in self.probe_raw['streams']`
loop in `VideoConverter.get_simplified_probe` (converter.py lines
50-65): seven optional fields with `None` fallback, then `width` and
`height` added only when present. -/
def simplifyStream (s : JVal) : Except String JVal := do
  let cn ← optField s "codec_name"
  let ct ← optField s "codec_type"
  let du ← optField s "duration"
  let br ← optField s "bit_rate"
  let fr ← optField s "r_frame_rate"
  let cs ← optField s "color_space"
  let cr ← optField s "color_range"
  let base := [("codec_name", cn), ("codec_type", ct), ("duration", du),
               ("bit_rate", br), ("frame_rate", fr), ("color_space", cs),
               ("color_range", cr)]
  let hw ← jhas s "width"
  let base ←
    if hw then do
      let w ← jget s "width"
      pure (base ++ [("width", w)])
    else pure base
  let hh ← jhas s "height"
  let base ←
    if hh then do
      let h ← jget s "height"
      pure (base ++ [("height", h)])
    else pure base
  pure (.obj base)

/-- The stream loop of `get_simplified_probe`, building the simplified
stream list in order. -/
def simplifyStreams : List JVal → Except String (List JVal)
  | [] => .ok []
  | s :: rest => do
    let n ← simplifyStream s
    let ns ← simplifyStreams rest
    pure (n :: ns)

/-- Lookup with the `None` fallback: the value a dict holds at `k`, or
null when the key is absent. -/
def lookupOr (kvs : List (String × JVal)) (k : String) : JVal :=
  match kvs.lookup k with
  | some v => v
  | none => .null

/-- The simplified record `simplifyStream` produces for a stream dict:
each of the seven optional fields is the stored value or null, and
`width`/`height` appear only when present in the input.  (This is the
closed form of the loop body; `simplifyStream_obj` proves the two
agree.) -/
def simplifiedStream (kvs : List (String × JVal)) : JVal :=
  .obj ([("codec_name", lookupOr kvs "codec_name"),
         ("codec_type", lookupOr kvs "codec_type"),
         ("duration", lookupOr kvs "duration"),
         ("bit_rate", lookupOr kvs "bit_rate"),
         ("frame_rate", lookupOr kvs "r_frame_rate"),
         ("color_space", lookupOr kvs "color_space"),
         ("color_range", lookupOr kvs "color_range")]
    ++ (match kvs.lookup "width" with
        | some w => [("width", w)]
        | none => [])
    ++ (match kvs.lookup "height" with
        | some h => [("height", h)]
        | none => []))

/-- `VideoConverter.get_simplified_probe` (converter.py lines 34-67).
The format-level fields `filename`, `duration`, `size` and `bit_rate`
are read with plain subscripting (no fallback), as is `tags`; only
`creation_time` inside `tags` and the per-stream fields are optional.
Iterating `self.probe_raw['streams']` requires a list. -/
def get_simplified_probe (raw : JVal) : Except String JVal := do
  let fmt ← jget raw "format"
  let filename ← jget fmt "filename"
  let duration ← jget fmt "duration"
  let size ← jget fmt "size"
  let bit_rate ← jget fmt "bit_rate"
  let tags ← jget fmt "tags"
  let creation_time ← optField tags "creation_time"
  let streamsRaw ← jget raw "streams"
  match streamsRaw with
  | .arr ss => do
    let newStreams ← simplifyStreams ss
    pure (.obj [("filename", filename), ("duration", duration),
                ("size", size), ("bit_rate", bit_rate),
                ("creation_time", creation_time),
                ("streams", .arr newStreams)])
  | _ => .error "TypeError: not iterable"

/-- The accepted container format names in `VideoConverter.validate_file`
(converter.py line 87). -/
def acceptedFormats : List String :=
  ["mov,mp4,m4a,3gp,3g2,mj2", "matroska,webm", "avi", "quicktime, mov",
   "rawvideo"]

/-- The list comprehension
`[stream for stream in self.probe['streams'] if stream['codec_type'] == 'video']`
(converter.py line 92): each element's `codec_type` is read with plain
subscripting, and compared to the string `"video"` (a comparison with any
non-equal value, including `None`, is simply false). -/
def videoStreamsOf : List JVal → Except String (List JVal)
  | [] => .ok []
  | s :: rest => do
    let ct ← jget s "codec_type"
    let keep := match ct with
      | .str t => t == "video"
      | _ => false
    let others ← videoStreamsOf rest
    pure (if keep then s :: others else others)

/-- `VideoConverter.validate_file` (converter.py lines 78-97), operating on
`self.probe`, the SIMPLIFIED probe built by `get_simplified_probe`.  Its
first step is the subscript chain `self.probe['format']['format_name']`. -/
def validate_file (probe : JVal) : Except String Bool := do
  let fmtSec ← jget probe "format"
  let format ← jget fmtSec "format_name"
  let okFormat := match format with
    | .str s => acceptedFormats.contains s
    | _ => false
  if okFormat then do
    let streamsVal ← jget probe "streams"
    match streamsVal with
    | .arr ss => do
      let vs ← videoStreamsOf ss
      if vs.length = 0 then pure false else pure true
    | _ => .error "TypeError: not iterable"
  else
    pure false

/-- Rendering of a `JVal` inside a Python f-string (`str()` of the value). -/
def jstr : JVal → String
  | .null => "None"
  | .str s => s
  | .num n => toString n
  | .arr _ => "<list>"
  | .obj _ => "<dict>"

/-- Python truthiness of a `JVal` (`if self.probe["creation_time"]`). -/
def jtruthy : JVal → Bool
  | .null => false
  | .str s => s ≠ ""
  | .num n => n ≠ 0
  | .arr xs => !xs.isEmpty
  | .obj kvs => !kvs.isEmpty

/-- `VideoConverter.print_metadata` (converter.py lines 69-76): the four
printed lines, in the order the subscript expressions are evaluated.
`self.probe["streams"][0]` raises `IndexError` on an empty list. -/
def print_metadata (probe : JVal) : Except String (List String) := do
  let d ← jget probe "duration"
  let streamsVal ← jget probe "streams"
  let s0 ← match streamsVal with
    | .arr (s :: _) => Except.ok s
    | .arr [] => Except.error "IndexError: list index out of range"
    | _ => Except.error "TypeError: not subscriptable"
  let fr ← jget s0 "frame_rate"
  let w ← jget s0 "width"
  let h ← jget s0 "height"
  let ct ← jget probe "creation_time"
  pure ["Video duration: " ++ jstr d,
        "Video framerate: " ++ jstr fr,
        "Video dimensions: " ++ jstr w ++ "x" ++ jstr h,
        "Video creation time: " ++ (if jtruthy ct then jstr ct else "Unknown")]

/-! ## Path model (`pathlib.Path`)

Paths are strings.  `Path.suffix` is the extension of the final
component: scanning from the right, the characters up to the last `.`
form the extension provided that dot is neither the first character of
the final component nor its last, matching `pathlib`'s
`0 < name.rfind('.') < len(name) - 1` rule.  `revSuffixCore` performs
that scan on the reversed character list, returning the reversed
extension (without the dot) and the reversed remainder (everything
before the dot). -/

/-- Scan a reversed path for a valid extension: `acc` accumulates the
extension characters seen so far (in forward order). -/
def revSuffixCore (acc : List Char) : List Char → Option (List Char × List Char)
  | [] => none
  | c :: cs =>
    if c = '/' then none
    else if c = '.' then
      match cs with
      | [] => none
      | d :: _ => if d = '/' then none else if acc = [] then none else some (acc, cs)
    else revSuffixCore (c :: acc) cs

/-- `Path.suffix`: the extension of the final component including the
leading dot, or `""`. -/
def pathSuffix (p : String) : String :=
  match revSuffixCore [] p.data.reverse with
  | none => ""
  | some (ext, _) => String.mk ('.' :: ext)

/-- `Path.with_suffix(suf)`: drop the current extension (if any) and
append `suf`. -/
def withSuffix (p : String) (suf : String) : String :=
  match revSuffixCore [] p.data.reverse with
  | none => p ++ suf
  | some (_, restRev) => String.mk restRev.reverse ++ suf

/-- `Path.stem`: the final component without its extension. -/
def pathStem (p : String) : String :=
  match revSuffixCore [] p.data.reverse with
  | none => String.mk ((p.data.reverse.takeWhile (fun c => c ≠ '/')).reverse)
  | some (_, restRev) => String.mk ((restRev.takeWhile (fun c => c ≠ '/')).reverse)

/-! ## `VideoConverter.convert` (converter.py lines 99-128) -/

/-- Outcome of a `convert` call. -/
inductive ConvertOutcome where
  | sameFormat : ConvertOutcome
  | success (outputPath : String) : ConvertOutcome
  | transcodeFailed (msg : String) : ConvertOutcome

/-- Observable effects of one `convert` call: its outcome, whether
`ffmpeg.run` (the transcode capability) was invoked, and the output file
it wrote, if any. -/
structure ConvertRun where
  outcome : ConvertOutcome
  transcodeCalled : Bool
  fileWritten : Option String

/-- Output-path resolution in `convert` (converter.py lines 110-113):
the explicit `output_path` when given, else the input path with its
suffix replaced by `.output_format`. -/
def resolveOutput (input_path : String) (output_format : String)
    (output_path : Option String) : String :=
  match output_path with
  | none => withSuffix input_path ("." ++ output_format)
  | some p => p

/-- `VideoConverter.convert` (converter.py lines 99-128).  The external
`ffmpeg.run` transcode capability is abstracted as the `transcode`
argument: `.ok ()` when it succeeds (writing the output file), `.error e`
when it raises `ffmpeg.Error`.  When the input and resolved output
suffixes coincide the function prints and returns without touching
`ffmpeg`. -/
def convert (input_path : String) (output_format : String)
    (output_path : Option String) (transcode : Except String Unit) :
    ConvertRun :=
  let out := resolveOutput input_path output_format output_path
  if pathSuffix input_path = pathSuffix out then
    ⟨.sameFormat, false, none⟩
  else
    match transcode with
    | .ok _ => ⟨.success out, true, some out⟩
    | .error e => ⟨.transcodeFailed e, true, none⟩

/-! ## `FrameExtractor` (extractor.py) -/

/-- `FrameExtractor.__init__` (extractor.py lines 7-9): asserts that the
input path's suffix is `.mp4` before anything else; on success the
instance stores the path.  The `assert` raising `AssertionError` is the
error case. -/
def FrameExtractor.init (video_path : String) : Except String String :=
  if pathSuffix video_path = ".mp4" then .ok video_path
  else .error "AssertionError: Video file must be a .mp4 file"

/-- One call to `video.read()`: either a frame is delivered
(`success`), or the read itself raises (`raises`).  After the listed
events are exhausted, every further read returns `success == False`
(end of stream). -/
inductive ReadEv where
  | success : ReadEv
  | raises : ReadEv
deriving DecidableEq

/-- How the read loop of `extract_frames` terminated: `normal` via the
`break` on a failed read, `exn` by an exception propagating out of a
read or a write. -/
inductive RunExit where
  | normal : RunExit
  | exn : RunExit
deriving DecidableEq

/-- Modelled from the spec: the `ExtractionSummary { framesRead,
framesExtracted, outputDirectory }` record that §4.2 step 7 says
`extractFrames` returns.  No such record exists in extractor.py; the
type is introduced only to state claims about the function's return
value. -/
structure ExtractionSummary where
  framesRead : Nat
  framesExtracted : Nat
  outputDirectory : String
deriving DecidableEq

/-- Observable result of one `extract_frames` call. -/
structure ExtractRun where
  outputDir : String
  expectedCount : Nat
  framesRead : Nat
  framesExtracted : Nat
  written : List String
  released : Bool
  exit : RunExit
  ret : Option ExtractionSummary

/-- The `while video.isOpened()` loop of `extract_frames` (extractor.py
lines 36-48), parameterised by the remaining read events and by which
frame indices make `cv2.imwrite` raise.  Returns the final
`frame_count`, `extracted_count`, the files written (in order), and how
the loop exited. -/
def extractLoop (writeFails : Nat → Bool) (interval : Nat) (dir : String) :
    List ReadEv → Nat → Nat → List String → Nat × Nat × List String × RunExit
  | [], fc, ec, w => (fc, ec, w, .normal)
  | .raises :: _, fc, ec, w => (fc, ec, w, .exn)
  | .success :: rest, fc, ec, w =>
    if fc % interval = 0 then
      if writeFails fc then (fc, ec, w, .exn)
      else extractLoop writeFails interval dir rest (fc + 1) (ec + 1)
             (w ++ [dir ++ "/" ++ toString fc ++ ".jpeg"])
    else extractLoop writeFails interval dir rest (fc + 1) ec w

/-- `FrameExtractor.extract_frames` (extractor.py lines 11-50).  The
cv2 capability is abstracted: `reads` is the sequence of read events the
opened source delivers, `writeFails` tells which `imwrite` calls raise,
`reportedCount` is `CAP_PROP_FRAME_COUNT` and `fps` the string rendering
of `CAP_PROP_FPS`.  `video.release()` runs only after a normal loop
exit: there is no `try`/`finally`, so an exception from a read or a
write propagates without releasing the capture.  The function body ends
without a `return` statement, so the call returns `None` (`ret = none`). -/
def extract_frames (video_path : String) (reads : List ReadEv)
    (writeFails : Nat → Bool) (reportedCount : Nat) (fps : String)
    (frame_interval : Nat) : ExtractRun :=
  let num_frames_to_extract := reportedCount / frame_interval
  let frame_dir := "frames_" ++ pathStem video_path ++ "_" ++ fps
  let (fc, ec, w, ex) := extractLoop writeFails frame_interval frame_dir reads 0 0 []
  { outputDir := frame_dir
    expectedCount := num_frames_to_extract
    framesRead := fc
    framesExtracted := ec
    written := w
    released := ex == RunExit.normal
    exit := ex
    ret := none }

/-- The file name written for frame index `i`. -/
def frameFile (dir : String) (i : Nat) : String :=
  dir ++ "/" ++ toString i ++ ".jpeg"

/-! ## Helper lemmas about the path model -/

/-- Scanning a reversed path whose tail begins with a well-formed
extension: the scan accumulates the extension and stops at the dot. -/
theorem revSuffixCore_scan (re : List Char) (racc : List Char) (d : Char)
    (rds : List Char) (h1 : ∀ c ∈ re, c ≠ '.' ∧ c ≠ '/') (h2 : d ≠ '/')
    (h3 : re.reverse ++ racc ≠ []) :
    revSuffixCore racc (re ++ '.' :: d :: rds) =
      some (re.reverse ++ racc, d :: rds) := by
  induction re generalizing racc with
  | nil =>
    have hr : racc ≠ [] := by simpa using h3
    simp [revSuffixCore, h2, hr]
  | cons c cs ih =>
    obtain ⟨hc1, hc2⟩ := h1 c (by simp)
    have hrest : ∀ x ∈ cs, x ≠ '.' ∧ x ≠ '/' := fun x hx => h1 x (by simp [hx])
    have hne : cs.reverse ++ c :: racc ≠ [] := by simp
    simp only [List.cons_append, revSuffixCore, hc2, hc1, if_false,
      List.append_eq]
    rw [ih (c :: racc) hrest hne]
    simp

/-- A path of the form `d ++ "." ++ e`, where `e` is a well-formed
extension (non-empty, no dot, no slash) and `d` does not end in `/`,
splits at that final dot. -/
theorem revSuffixCore_structured (d e : String) (hne : e.data ≠ [])
    (he : ∀ c ∈ e.data, c ≠ '.' ∧ c ≠ '/')
    (dc : Char) (dtl : List Char) (hd : d.data.reverse = dc :: dtl)
    (hdc : dc ≠ '/') :
    revSuffixCore [] (d ++ "." ++ e).data.reverse =
      some (e.data, d.data.reverse) := by
  have hdata : (d ++ "." ++ e).data = d.data ++ '.' :: e.data := by
    simp [String.data_append]
  have hrev : (d ++ "." ++ e).data.reverse =
      e.data.reverse ++ '.' :: d.data.reverse := by
    rw [hdata]; simp
  rw [hrev, hd]
  have he' : ∀ c ∈ e.data.reverse, c ≠ '.' ∧ c ≠ '/' := by
    intro c hc; exact he c (List.mem_reverse.mp hc)
  have h3 : e.data.reverse.reverse ++ ([] : List Char) ≠ [] := by
    simpa using hne
  rw [revSuffixCore_scan e.data.reverse [] dc dtl he' hdc h3]
  simp [hd]

/-- `Path.suffix` of a structured path `d ++ "." ++ e` is `"." ++ e`. -/
theorem pathSuffix_structured (d e : String) (hne : e.data ≠ [])
    (he : ∀ c ∈ e.data, c ≠ '.' ∧ c ≠ '/')
    (dc : Char) (dtl : List Char) (hd : d.data.reverse = dc :: dtl)
    (hdc : dc ≠ '/') :
    pathSuffix (d ++ "." ++ e) = "." ++ e := by
  rw [pathSuffix, revSuffixCore_structured d e hne he dc dtl hd hdc]
  apply String.ext
  simp [String.data_append]

/-- `Path.with_suffix` of a structured path `d ++ "." ++ e` keeps `d`
and replaces the extension. -/
theorem withSuffix_structured (d e suf : String) (hne : e.data ≠ [])
    (he : ∀ c ∈ e.data, c ≠ '.' ∧ c ≠ '/')
    (dc : Char) (dtl : List Char) (hd : d.data.reverse = dc :: dtl)
    (hdc : dc ≠ '/') :
    withSuffix (d ++ "." ++ e) suf = d ++ suf := by
  rw [withSuffix, revSuffixCore_structured d e hne he dc dtl hd hdc]
  apply String.ext
  simp [String.data_append]

/-! ## Claim theorems about `convert` and `FrameExtractor.__init__` -/

/-- Claim C5: for every input path, output format and (explicit or
derived) output path whose resolved extension equals the input's
extension, `convert` terminates early with the same-format outcome,
never invokes the transcode capability, and writes no output file. -/
theorem convert_same_suffix_is_noop (input_path output_format : String)
    (output_path : Option String) (transcode : Except String Unit)
    (h : pathSuffix input_path =
      pathSuffix (resolveOutput input_path output_format output_path)) :
    convert input_path output_format output_path transcode =
      ⟨ConvertOutcome.sameFormat, false, none⟩ := by
  simp [convert, h]

/-- Witness for C5: input `a.mp4`, requested format `mp4`, no explicit
output path. -/
theorem convert_same_suffix_is_noop_witness :
    convert "a.mp4" "mp4" none (.ok ()) =
      ⟨ConvertOutcome.sameFormat, false, none⟩ :=
  convert_same_suffix_is_noop "a.mp4" "mp4" none (.ok ()) (by rfl)

/-- Claim C6: with no explicit output path, `convert` resolves the
output path by replacing only the input path's extension with the
requested format, leaving everything before the extension (directory
and base name) unchanged; e.g. `clip.mov` with format `mp4` resolves to
`clip.mp4`. -/
theorem convert_derives_output_path (d e fmt : String)
    (hne : e.data ≠ []) (he : ∀ c ∈ e.data, c ≠ '.' ∧ c ≠ '/')
    (dc : Char) (dtl : List Char) (hd : d.data.reverse = dc :: dtl)
    (hdc : dc ≠ '/') (_hdist : e ≠ fmt) :
    resolveOutput (d ++ "." ++ e) fmt none = d ++ "." ++ fmt ∧
    resolveOutput "clip.mov" "mp4" none = "clip.mp4" := by
  constructor
  · rw [resolveOutput, withSuffix_structured d e ("." ++ fmt) hne he dc dtl hd hdc]
    apply String.ext
    simp [String.data_append]
  · rfl

/-- Witness for C6: directory-free input `clip.mov`, format `mp4`. -/
theorem convert_derives_output_path_witness :
    resolveOutput ("clip" ++ "." ++ "mov") "mp4" none = "clip" ++ "." ++ "mp4" :=
  (convert_derives_output_path "clip" "mov" "mp4" (by decide) (by decide)
    'p' ['i', 'l', 'c'] (by rfl) (by decide) (by decide)).1

/-- Claim C8: constructing a `FrameExtractor` succeeds exactly on paths
with extension `.mp4`; on any other path it fails with the assertion
error, before anything touches the video (the constructor never consults
the decode capability: it depends only on the path). -/
theorem frameExtractor_init_mp4_only (p : String) :
    (FrameExtractor.init p = .ok p ↔ pathSuffix p = ".mp4") ∧
    (pathSuffix p ≠ ".mp4" →
      FrameExtractor.init p =
        .error "AssertionError: Video file must be a .mp4 file") := by
  by_cases h : pathSuffix p = ".mp4" <;> simp [FrameExtractor.init, h]

/-- Witness for C8: `clip.mp4` is accepted, `clip.avi` is rejected. -/
theorem frameExtractor_init_mp4_only_witness :
    FrameExtractor.init "clip.mp4" = .ok "clip.mp4" ∧
    FrameExtractor.init "clip.avi" =
      .error "AssertionError: Video file must be a .mp4 file" :=
  ⟨(frameExtractor_init_mp4_only "clip.mp4").1.mpr (by rfl),
   (frameExtractor_init_mp4_only "clip.avi").2 (by decide)⟩

/-! ## Helper lemmas about the extraction loop -/

/-- On a source that delivers `n` frames and then ends, with no write
failures, the loop reads all `n` frames, extracts exactly the indices
divisible by the stride, and exits normally. -/
theorem extractLoop_all_success (wf : Nat → Bool) (k : Nat) (dir : String)
    (hwf : ∀ i, wf i = false) :
    ∀ (n fc ec : Nat) (w : List String),
    extractLoop wf k dir (List.replicate n .success) fc ec w =
      (fc + n,
       ec + ((List.range' fc n).filter (fun i => decide (i % k = 0))).length,
       w ++ ((List.range' fc n).filter (fun i => decide (i % k = 0))).map
         (frameFile dir),
       .normal) := by
  intro n
  induction n with
  | zero => intro fc ec w; simp [extractLoop]
  | succ m ih =>
    intro fc ec w
    rw [List.replicate_succ]
    by_cases h : fc % k = 0
    · simp only [extractLoop, h, if_pos, hwf fc, Bool.false_eq_true,
        if_false, ite_true]
      rw [ih (fc + 1) (ec + 1) (w ++ [dir ++ "/" ++ toString fc ++ ".jpeg"])]
      rw [List.range'_succ, List.filter_cons_of_pos (by simpa using h)]
      simp [frameFile, List.append_assoc]
      omega
    · simp only [extractLoop, h, ite_false]
      rw [ih (fc + 1) ec w]
      rw [List.range'_succ, List.filter_cons_of_neg (by simpa using h)]
      simp
      omega

/-- Counting the multiples of `k` below `n`: the filter over
`List.range n` has length `⌈n / k⌉ = (n + k - 1) / k`. -/
theorem length_filter_mod_range (k : Nat) (hk : 1 ≤ k) :
    ∀ n : Nat,
    ((List.range n).filter (fun i => decide (i % k = 0))).length =
      (n + k - 1) / k := by
  intro n
  induction n with
  | zero =>
    simp [Nat.div_eq_of_lt (by omega : k - 1 < k)]
  | succ m ih =>
    rw [List.range_succ, List.filter_append]
    have hsucc : (m + 1 + k - 1) / k = (m + k - 1) / k +
        if k ∣ m + k then 1 else 0 := by
      have h1 : m + 1 + k - 1 = m + k - 1 + 1 := by omega
      rw [h1, Nat.succ_div]
      have h2 : m + k - 1 + 1 = m + k := by omega
      rw [h2]
    rw [hsucc]
    by_cases h : m % k = 0
    · have hdvd : k ∣ m + k := by
        exact Nat.dvd_add (Nat.dvd_iff_mod_eq_zero.mpr h) dvd_rfl
      simp [h, hdvd, ih]
    · have hndvd : ¬ k ∣ m + k := by
        intro hc
        exact h (Nat.dvd_iff_mod_eq_zero.mp (Nat.dvd_add_self_right.mp hc))
      simp [h, hndvd, ih]

/-- For a stride that does not divide a positive frame count, the ceiling
exceeds the floor by exactly one. -/
theorem ceil_div_eq_floor_add_one (k n : Nat) (hk : 1 ≤ k) (hnd : ¬ k ∣ n) :
    (n + k - 1) / k = n / k + 1 := by
  have h0 : 0 < k := hk
  have hmod : n % k ≠ 0 := fun h => hnd (Nat.dvd_iff_mod_eq_zero.mpr h)
  have hlt : n % k < k := Nat.mod_lt n h0
  have h1 : n + k - 1 = k * (n / k + 1) + (n % k - 1) := by
    have h2 := Nat.div_add_mod n k
    have h3 : k * (n / k + 1) = k * (n / k) + k := by ring
    omega
  rw [h1, Nat.mul_add_div h0, Nat.div_eq_of_lt (by omega : n % k - 1 < k)]

/-- Fields of an `extract_frames` run over a source that delivers `n`
frames and then ends, with no write failures and a reported count of
`n`. -/
theorem extract_frames_all_success (vp fps : String) (n k : Nat) :
    (extract_frames vp (List.replicate n .success) (fun _ => false) n fps k).written =
      ((List.range n).filter (fun i => decide (i % k = 0))).map
        (frameFile ("frames_" ++ pathStem vp ++ "_" ++ fps)) ∧
    (extract_frames vp (List.replicate n .success) (fun _ => false) n fps k).framesExtracted =
      ((List.range n).filter (fun i => decide (i % k = 0))).length ∧
    (extract_frames vp (List.replicate n .success) (fun _ => false) n fps k).framesRead = n ∧
    (extract_frames vp (List.replicate n .success) (fun _ => false) n fps k).outputDir =
      "frames_" ++ pathStem vp ++ "_" ++ fps ∧
    (extract_frames vp (List.replicate n .success) (fun _ => false) n fps k).exit =
      RunExit.normal ∧
    (extract_frames vp (List.replicate n .success) (fun _ => false) n fps k).expectedCount =
      n / k := by
  have hloop := extractLoop_all_success (fun _ => false) k
    ("frames_" ++ pathStem vp ++ "_" ++ fps) (fun _ => rfl) n 0 0 []
  simp [extract_frames, hloop, List.range_eq_range']

/-- Claim C3: for every stride `k ≥ 1` and source delivering `n` frames,
`extract_frames` writes exactly the files `<i>.jpeg` (inside the output
directory) for the indices `i < n` with `i % k = 0`, and no other; in
particular a 10-frame source with stride 3 yields indices
`[0, 3, 6, 9]` and an extracted count of 4. -/
theorem extract_frames_stride_filter (vp fps : String) (n k : Nat)
    (hk : 1 ≤ k) :
    ((extract_frames vp (List.replicate n .success) (fun _ => false) n fps k).written =
      ((List.range n).filter (fun i => decide (i % k = 0))).map
        (frameFile ((extract_frames vp (List.replicate n .success) (fun _ => false) n fps k).outputDir))) ∧
    ((extract_frames vp (List.replicate 10 .success) (fun _ => false) 10 fps 3).written =
      [0, 3, 6, 9].map
        (frameFile ((extract_frames vp (List.replicate 10 .success) (fun _ => false) 10 fps 3).outputDir))) ∧
    (extract_frames vp (List.replicate 10 .success) (fun _ => false) 10 fps 3).framesExtracted = 4 := by
  have _ := hk
  refine ⟨?_, ?_, ?_⟩
  · obtain ⟨hw, _, _, hdir, _, _⟩ := extract_frames_all_success vp fps n k
    rw [hw, hdir]
  · obtain ⟨hw, _, _, hdir, _, _⟩ := extract_frames_all_success vp fps 10 3
    rw [hw, hdir]
    have : (List.range 10).filter (fun i => decide (i % 3 = 0)) = [0, 3, 6, 9] := by
      decide
    rw [this]
  · obtain ⟨_, he, _, _, _, _⟩ := extract_frames_all_success vp fps 10 3
    rw [he]
    decide

/-- Witness for C3, at the concrete 10-frame, stride-3 scenario. -/
theorem extract_frames_stride_filter_witness :
    1 ≤ 3 ∧
    (extract_frames "v.mp4" (List.replicate 10 .success) (fun _ => false) 10 "30.0" 3).framesExtracted = 4 :=
  ⟨by decide,
   (extract_frames_stride_filter "v.mp4" "30.0" 10 3 (by decide)).2.2⟩

/-- Claim C10: the progress-bar estimate computed up front is the FLOOR
`n / k`, while the loop actually extracts `⌈n / k⌉ = (n + k - 1) / k`
frames from a source delivering `n` frames; when `k` does not divide a
positive `n`, the actual count exceeds the estimate by exactly one. -/
theorem extract_frames_expected_vs_actual (vp fps : String) (n k : Nat)
    (hk : 1 ≤ k) :
    (extract_frames vp (List.replicate n .success) (fun _ => false) n fps k).expectedCount =
      n / k ∧
    (extract_frames vp (List.replicate n .success) (fun _ => false) n fps k).framesExtracted =
      (n + k - 1) / k ∧
    (¬ k ∣ n → 0 < n →
      (extract_frames vp (List.replicate n .success) (fun _ => false) n fps k).framesExtracted =
        (extract_frames vp (List.replicate n .success) (fun _ => false) n fps k).expectedCount + 1) := by
  obtain ⟨_, he, _, _, _, hexp⟩ := extract_frames_all_success vp fps n k
  have hlen := length_filter_mod_range k hk n
  refine ⟨hexp, by rw [he, hlen], ?_⟩
  intro hnd _
  rw [he, hlen, hexp, ceil_div_eq_floor_add_one k n hk hnd]

/-- Witness for C10: `n = 10`, `k = 3`: estimate 3, actual 4. -/
theorem extract_frames_expected_vs_actual_witness :
    1 ≤ 3 ∧
    (extract_frames "v.mp4" (List.replicate 10 .success) (fun _ => false) 10 "30.0" 3).framesExtracted =
      (extract_frames "v.mp4" (List.replicate 10 .success) (fun _ => false) 10 "30.0" 3).expectedCount + 1 :=
  ⟨by decide,
   (extract_frames_expected_vs_actual "v.mp4" "30.0" 10 3 (by decide)).2.2
     (by decide) (by decide)⟩

/-- Counterexample to claim C4: a run that completes normally (10-frame
source, stride 3) returns `None` — no `ExtractionSummary` record is
produced, because `extract_frames` has no `return` statement. -/
theorem extract_frames_returns_none_cex :
    (extract_frames "v.mp4" (List.replicate 10 .success) (fun _ => false) 10 "30.0" 3).exit =
      RunExit.normal ∧
    (extract_frames "v.mp4" (List.replicate 10 .success) (fun _ => false) 10 "30.0" 3).ret =
      (none : Option ExtractionSummary) :=
  ⟨rfl, rfl⟩

/-- Claim C4 as amended: `extract_frames` tracks the frames read, the
frames extracted and the output directory only as internal state and
side effects; its return value is `None` (no summary record), even when
extraction completes normally. -/
theorem extract_frames_no_summary (vp fps : String) (n k : Nat)
    (hk : 1 ≤ k) :
    (extract_frames vp (List.replicate n .success) (fun _ => false) n fps k).ret =
      (none : Option ExtractionSummary) ∧
    (extract_frames vp (List.replicate n .success) (fun _ => false) n fps k).framesRead = n ∧
    (extract_frames vp (List.replicate n .success) (fun _ => false) n fps k).framesExtracted =
      (n + k - 1) / k ∧
    (extract_frames vp (List.replicate n .success) (fun _ => false) n fps k).outputDir =
      "frames_" ++ pathStem vp ++ "_" ++ fps := by
  obtain ⟨_, he, hr, hdir, _, _⟩ := extract_frames_all_success vp fps n k
  exact ⟨rfl, hr, by rw [he, length_filter_mod_range k hk n], hdir⟩

/-- Witness for the amended C4, at the 10-frame, stride-3 run. -/
theorem extract_frames_no_summary_witness :
    1 ≤ 3 ∧
    (extract_frames "v.mp4" (List.replicate 10 .success) (fun _ => false) 10 "30.0" 3).ret =
      (none : Option ExtractionSummary) :=
  ⟨by decide, (extract_frames_no_summary "v.mp4" "30.0" 10 3 (by decide)).1⟩

/-- Counterexample to claim C7: when `cv2.imwrite` raises at frame 3
(stride 1, 5-frame source), the exception propagates out of the loop and
`video.release()` is never executed — the source is NOT released on this
exit path. -/
theorem extract_frames_release_cex :
    (extract_frames "v.mp4" (List.replicate 5 ReadEv.success) (fun i => i == 3) 5 "25.0" 1).released =
      false ∧
    (extract_frames "v.mp4" (List.replicate 5 ReadEv.success) (fun i => i == 3) 5 "25.0" 1).framesRead =
      3 :=
  ⟨rfl, rfl⟩

/-- Claim C7 as amended: the frame source is released exactly when the
read loop terminates normally (end of stream); an exception raised by a
read or a write propagates without releasing the source.  In particular
every failure-free run releases it. -/
theorem extract_frames_release_normal_only (vp fps : String)
    (reads : List ReadEv) (wf : Nat → Bool) (rc k : Nat) :
    ((extract_frames vp reads wf rc fps k).released = true ↔
      (extract_frames vp reads wf rc fps k).exit = RunExit.normal) ∧
    ((∀ r ∈ reads, r = ReadEv.success) → (∀ i, wf i = false) →
      (extract_frames vp reads wf rc fps k).released = true) := by
  constructor
  · rcases hl : extractLoop wf k ("frames_" ++ pathStem vp ++ "_" ++ fps)
      reads 0 0 [] with ⟨fc, ec, w, ex⟩
    simp [extract_frames, hl]
  · intro hr hwf
    have hreads : reads = List.replicate reads.length ReadEv.success :=
      List.eq_replicate_of_mem hr
    have hloop := extractLoop_all_success wf k
      ("frames_" ++ pathStem vp ++ "_" ++ fps) hwf reads.length 0 0 []
    rw [hreads]
    simp [extract_frames, hloop]

/-- Witness for the amended C7: a failure-free 2-frame run releases the
source. -/
theorem extract_frames_release_normal_only_witness :
    (extract_frames "v.mp4" (List.replicate 2 ReadEv.success) (fun _ => false) 2 "30.0" 1).released =
      true :=
  (extract_frames_release_normal_only "v.mp4" "30.0"
    (List.replicate 2 ReadEv.success) (fun _ => false) 2 1).2
    (by decide) (fun _ => rfl)

/-! ## Helper lemmas about probe simplification -/

/-- The optional-field pattern never fails on a dict: it yields the
stored value or `None`. -/
theorem optField_obj (kvs : List (String × JVal)) (k : String) :
    optField (.obj kvs) k = .ok (lookupOr kvs k) := by
  cases h : kvs.lookup k <;>
    simp [optField, jhas, jget, lookupOr, h, Bind.bind, Except.bind,
      Pure.pure, Except.pure]

/-- Simplifying a single stream dict always succeeds, whatever subset of
keys it carries, producing `simplifiedStream`: the stored value or null
for each of the seven optional fields, `width`/`height` only when
present. -/
theorem simplifyStream_obj (kvs : List (String × JVal)) :
    simplifyStream (.obj kvs) = .ok (simplifiedStream kvs) := by
  cases hw : kvs.lookup "width" <;> cases hh : kvs.lookup "height" <;>
    simp [simplifyStream, simplifiedStream, optField_obj, lookupOr, jhas,
      jget, hw, hh, Bind.bind, Except.bind, Pure.pure, Except.pure]

/-- Simplifying a list of stream dicts always succeeds, mapping
`simplifiedStream` over it. -/
theorem simplifyStreams_objs (ss : List (List (String × JVal))) :
    simplifyStreams (ss.map JVal.obj) = .ok (ss.map simplifiedStream) := by
  induction ss with
  | nil => rfl
  | cons s rest ih =>
    simp [simplifyStreams, simplifyStream_obj, ih, Bind.bind, Except.bind,
      Pure.pure, Except.pure]

/-- Counterexample to claim C1: a raw probe that DOES contain both the
`format` and `streams` keys, but whose format section lacks the
`filename` sub-key, makes `get_simplified_probe` fail (with a
`KeyError`, not a success with `filename = null`). -/
theorem get_simplified_probe_cex :
    get_simplified_probe (.obj [("format", .obj []), ("streams", .arr [])]) =
      .error "KeyError: filename" := rfl

/-- Claim C1 as amended: `get_simplified_probe` succeeds on any raw
probe whose `format` section contains `filename`, `duration`, `size`,
`bit_rate` and a `tags` dict and whose `streams` value is a list of
dicts, and its output maps each missing optional stream sub-key — and a
missing `tags.creation_time` — to null (`lookupOr` and
`simplifiedStream` return null exactly for absent keys); it fails with
a key error when `format` or `streams` is absent, but ALSO when any of
those five format-level keys is absent (they are mandatory in the code,
not optional as the claim states). -/
theorem get_simplified_probe_domain
    (rkvs fkvs tkvs : List (String × JVal)) (ss : List (List (String × JVal)))
    (v1 v2 v3 v4 : JVal) :
    (rkvs.lookup "format" = some (.obj fkvs) →
     rkvs.lookup "streams" = some (.arr (ss.map JVal.obj)) →
     fkvs.lookup "filename" = some v1 →
     fkvs.lookup "duration" = some v2 →
     fkvs.lookup "size" = some v3 →
     fkvs.lookup "bit_rate" = some v4 →
     fkvs.lookup "tags" = some (.obj tkvs) →
     get_simplified_probe (.obj rkvs) =
       .ok (.obj [("filename", v1), ("duration", v2), ("size", v3),
                  ("bit_rate", v4),
                  ("creation_time", lookupOr tkvs "creation_time"),
                  ("streams", .arr (ss.map simplifiedStream))])) ∧
    (rkvs.lookup "format" = none →
     get_simplified_probe (.obj rkvs) = .error "KeyError: format") ∧
    (rkvs.lookup "format" = some (.obj fkvs) →
     (fkvs.lookup "filename" = none ∨ fkvs.lookup "duration" = none ∨
      fkvs.lookup "size" = none ∨ fkvs.lookup "bit_rate" = none ∨
      fkvs.lookup "tags" = none) →
     ∃ e, get_simplified_probe (.obj rkvs) = .error e) ∧
    (rkvs.lookup "format" = some (.obj fkvs) →
     fkvs.lookup "filename" = some v1 →
     fkvs.lookup "duration" = some v2 →
     fkvs.lookup "size" = some v3 →
     fkvs.lookup "bit_rate" = some v4 →
     fkvs.lookup "tags" = some (.obj tkvs) →
     rkvs.lookup "streams" = none →
     get_simplified_probe (.obj rkvs) = .error "KeyError: streams") := by
  refine ⟨?_, ?_, ?_, ?_⟩
  · intro hf hs h1 h2 h3 h4 ht
    simp [get_simplified_probe, jget, optField_obj, simplifyStreams_objs,
      hf, hs, h1, h2, h3, h4, ht, Bind.bind, Except.bind, Pure.pure,
      Except.pure]
  · intro hf
    simp [get_simplified_probe, jget, hf, Bind.bind, Except.bind]
  · intro hf hdisj
    cases h1 : fkvs.lookup "filename" with
    | none =>
      exact ⟨"KeyError: filename",
        by simp [get_simplified_probe, jget, hf, h1, Bind.bind, Except.bind]⟩
    | some w1 =>
      cases h2 : fkvs.lookup "duration" with
      | none =>
        exact ⟨"KeyError: duration",
          by simp [get_simplified_probe, jget, hf, h1, h2, Bind.bind,
            Except.bind]⟩
      | some w2 =>
        cases h3 : fkvs.lookup "size" with
        | none =>
          exact ⟨"KeyError: size",
            by simp [get_simplified_probe, jget, hf, h1, h2, h3, Bind.bind,
              Except.bind]⟩
        | some w3 =>
          cases h4 : fkvs.lookup "bit_rate" with
          | none =>
            exact ⟨"KeyError: bit_rate",
              by simp [get_simplified_probe, jget, hf, h1, h2, h3, h4,
                Bind.bind, Except.bind]⟩
          | some w4 =>
            cases h5 : fkvs.lookup "tags" with
            | none =>
              exact ⟨"KeyError: tags",
                by simp [get_simplified_probe, jget, hf, h1, h2, h3, h4, h5,
                  Bind.bind, Except.bind]⟩
            | some t =>
              simp [h1, h2, h3, h4, h5] at hdisj
  · intro hf h1 h2 h3 h4 ht hs
    simp [get_simplified_probe, jget, optField_obj, hf, hs, h1, h2, h3, h4,
      ht, Bind.bind, Except.bind, Pure.pure, Except.pure]

/-- Witness for the amended C1: a raw probe with the mandatory format
fields, no `creation_time` tag, and one stream carrying only
`codec_type` simplifies to the record with null for every missing
optional field (and no `width`/`height` entry). -/
theorem get_simplified_probe_domain_witness :
    get_simplified_probe (.obj
      [("format", .obj [("filename", .str "a.mov"), ("duration", .str "1.0"),
                        ("size", .str "10"), ("bit_rate", .str "64"),
                        ("tags", .obj [])]),
       ("streams", .arr [JVal.obj [("codec_type", .str "video")]])]) =
      .ok (.obj [("filename", JVal.str "a.mov"), ("duration", .str "1.0"),
                 ("size", .str "10"), ("bit_rate", .str "64"),
                 ("creation_time", .null),
                 ("streams", .arr [JVal.obj
                   [("codec_name", .null), ("codec_type", .str "video"),
                    ("duration", .null), ("bit_rate", .null),
                    ("frame_rate", .null), ("color_space", .null),
                    ("color_range", .null)]])]) :=
  (get_simplified_probe_domain
    [("format", .obj [("filename", .str "a.mov"), ("duration", .str "1.0"),
                      ("size", .str "10"), ("bit_rate", .str "64"),
                      ("tags", .obj [])]),
     ("streams", .arr [JVal.obj [("codec_type", .str "video")]])]
    [("filename", .str "a.mov"), ("duration", .str "1.0"),
     ("size", .str "10"), ("bit_rate", .str "64"), ("tags", .obj [])]
    [] [[("codec_type", .str "video")]]
    (.str "a.mov") (.str "1.0") (.str "10") (.str "64")).1
    (by rfl) (by rfl) (by rfl) (by rfl) (by rfl) (by rfl) (by rfl)

/-- Success of a bind in the `Except String` monad splits into success
of both stages. -/
theorem exceptBind_ok {α β : Type} {x : Except String α}
    {f : α → Except String β} {b : β} (h : (x >>= f) = .ok b) :
    ∃ a, x = .ok a ∧ f a = .ok b := by
  cases x with
  | error e => simp [Bind.bind, Except.bind] at h
  | ok a => exact ⟨a, rfl, by simpa [Bind.bind, Except.bind] using h⟩

/-- Whenever `get_simplified_probe` succeeds, its output is a dict with
exactly the six keys `filename`, `duration`, `size`, `bit_rate`,
`creation_time`, `streams` — in particular it has no `format` key. -/
theorem get_simplified_probe_shape (raw s : JVal)
    (h : get_simplified_probe raw = .ok s) :
    ∃ a b c d e f, s = JVal.obj [("filename", a), ("duration", b),
      ("size", c), ("bit_rate", d), ("creation_time", e),
      ("streams", JVal.arr f)] := by
  unfold get_simplified_probe at h
  obtain ⟨fmt, h1, h⟩ := exceptBind_ok h
  obtain ⟨fn, h2, h⟩ := exceptBind_ok h
  obtain ⟨du, h3, h⟩ := exceptBind_ok h
  obtain ⟨sz, h4, h⟩ := exceptBind_ok h
  obtain ⟨br, h5, h⟩ := exceptBind_ok h
  obtain ⟨tg, h6, h⟩ := exceptBind_ok h
  obtain ⟨ctv, h7, h⟩ := exceptBind_ok h
  obtain ⟨sv, h8, h⟩ := exceptBind_ok h
  cases sv with
  | arr ss =>
    obtain ⟨outs, h10, h⟩ := exceptBind_ok h
    simp only [Pure.pure, Except.pure, Except.ok.injEq] at h
    exact ⟨fn, du, sz, br, ctv, outs, h.symm⟩
  | null => simp at h
  | str s' => simp at h
  | num n => simp at h
  | obj kvs => simp at h

/-- Claim C2 (refuted by the code): `validate_file` consults
`self.probe['format']['format_name']`, but `self.probe` is the
simplified probe, which never carries a `format` key; so on EVERY
simplified probe the function raises `KeyError: 'format'` instead of
returning a boolean.  The second conjunct evaluates it on the simplified
probe of an `avi` raw probe with a video stream — precisely an input the
claim says must yield `true`. -/
theorem validate_file_always_keyerror :
    (∀ raw s : JVal, get_simplified_probe raw = .ok s →
      validate_file s = .error "KeyError: format") ∧
    (get_simplified_probe (.obj
      [("format", .obj [("filename", .str "b.avi"), ("duration", .str "2.0"),
                        ("size", .str "20"), ("bit_rate", .str "128"),
                        ("format_name", .str "avi"), ("tags", .obj [])]),
       ("streams", .arr [JVal.obj [("codec_type", .str "video"),
                                   ("codec_name", .str "h264")]])]) =
      .ok (.obj [("filename", .str "b.avi"), ("duration", .str "2.0"),
                 ("size", .str "20"), ("bit_rate", .str "128"),
                 ("creation_time", .null),
                 ("streams", .arr [JVal.obj
                   [("codec_name", .str "h264"), ("codec_type", .str "video"),
                    ("duration", .null), ("bit_rate", .null),
                    ("frame_rate", .null), ("color_space", .null),
                    ("color_range", .null)]])]) ∧
     validate_file (.obj [("filename", .str "b.avi"), ("duration", .str "2.0"),
                 ("size", .str "20"), ("bit_rate", .str "128"),
                 ("creation_time", .null),
                 ("streams", .arr [JVal.obj
                   [("codec_name", .str "h264"), ("codec_type", .str "video"),
                    ("duration", .null), ("bit_rate", .null),
                    ("frame_rate", .null), ("color_space", .null),
                    ("color_range", .null)]])]) =
      .error "KeyError: format") := by
  constructor
  · intro raw s h
    obtain ⟨a, b, c, d, e, f, rfl⟩ := get_simplified_probe_shape raw s h
    simp [validate_file, jget, List.lookup, Bind.bind, Except.bind]
  · exact ⟨rfl, rfl⟩

/-- Witness for C2's universal part, at the `avi` raw probe above. -/
theorem validate_file_always_keyerror_witness :
    validate_file (.obj [("filename", .str "b.avi"), ("duration", .str "2.0"),
                 ("size", .str "20"), ("bit_rate", .str "128"),
                 ("creation_time", .null),
                 ("streams", .arr [JVal.obj
                   [("codec_name", .str "h264"), ("codec_type", .str "video"),
                    ("duration", .null), ("bit_rate", .null),
                    ("frame_rate", .null), ("color_space", .null),
                    ("color_range", .null)]])]) =
      .error "KeyError: format" :=
  validate_file_always_keyerror.1 (.obj
      [("format", .obj [("filename", .str "b.avi"), ("duration", .str "2.0"),
                        ("size", .str "20"), ("bit_rate", .str "128"),
                        ("format_name", .str "avi"), ("tags", .obj [])]),
       ("streams", .arr [JVal.obj [("codec_type", .str "video"),
                                   ("codec_name", .str "h264")]])])
    (.obj [("filename", .str "b.avi"), ("duration", .str "2.0"),
                 ("size", .str "20"), ("bit_rate", .str "128"),
                 ("creation_time", .null),
                 ("streams", .arr [JVal.obj
                   [("codec_name", .str "h264"), ("codec_type", .str "video"),
                    ("duration", .null), ("bit_rate", .null),
                    ("frame_rate", .null), ("color_space", .null),
                    ("color_range", .null)]])])
    (by rfl)

/-- Claim C9: `print_metadata` reads `width` and `height` from the FIRST
stream record, so it fails with a key error whenever that first stream
lacks one of them, even if other streams are present.  The second
conjunct runs the pipeline on a raw probe whose first stream is an audio
stream (no dimensions) followed by a video stream: simplification
succeeds, and `print_metadata` on the result raises `KeyError: 'width'`
despite `streams` being non-empty. -/
theorem print_metadata_requires_dims
    (pkvs skvs : List (String × JVal)) (rest : List JVal) :
    (pkvs.lookup "streams" = some (.arr (JVal.obj skvs :: rest)) →
     (skvs.lookup "width" = none ∨ skvs.lookup "height" = none) →
     ∃ e, print_metadata (.obj pkvs) = .error e) ∧
    (get_simplified_probe (.obj
      [("format", .obj [("filename", .str "x.mp4"), ("duration", .str "2.0"),
                        ("size", .str "5"), ("bit_rate", .str "9"),
                        ("tags", .obj [])]),
       ("streams", .arr [JVal.obj [("codec_type", .str "audio"),
                                   ("codec_name", .str "aac")],
                         JVal.obj [("codec_type", .str "video"),
                                   ("width", .num 640),
                                   ("height", .num 480)]])]) =
      .ok (.obj [("filename", .str "x.mp4"), ("duration", .str "2.0"),
                 ("size", .str "5"), ("bit_rate", .str "9"),
                 ("creation_time", .null),
                 ("streams", .arr [
        JVal.obj [("codec_name", .str "aac"), ("codec_type", .str "audio"),
                  ("duration", .null), ("bit_rate", .null),
                  ("frame_rate", .null), ("color_space", .null),
                  ("color_range", .null)],
        JVal.obj [("codec_name", .null), ("codec_type", .str "video"),
                  ("duration", .null), ("bit_rate", .null),
                  ("frame_rate", .null), ("color_space", .null),
                  ("color_range", .null),
                  ("width", .num 640), ("height", .num 480)]])]) ∧
     print_metadata (.obj [("filename", .str "x.mp4"), ("duration", .str "2.0"),
                 ("size", .str "5"), ("bit_rate", .str "9"),
                 ("creation_time", .null),
                 ("streams", .arr [
        JVal.obj [("codec_name", .str "aac"), ("codec_type", .str "audio"),
                  ("duration", .null), ("bit_rate", .null),
                  ("frame_rate", .null), ("color_space", .null),
                  ("color_range", .null)],
        JVal.obj [("codec_name", .null), ("codec_type", .str "video"),
                  ("duration", .null), ("bit_rate", .null),
                  ("frame_rate", .null), ("color_space", .null),
                  ("color_range", .null),
                  ("width", .num 640), ("height", .num 480)]])]) =
      .error "KeyError: width") := by
  constructor
  · intro hs hwh
    cases hd : pkvs.lookup "duration" with
    | none =>
      exact ⟨"KeyError: duration",
        by simp [print_metadata, jget, hd, Bind.bind, Except.bind]⟩
    | some dv =>
      cases hfr : skvs.lookup "frame_rate" with
      | none =>
        exact ⟨"KeyError: frame_rate",
          by simp [print_metadata, jget, hd, hs, hfr, Bind.bind, Except.bind]⟩
      | some frv =>
        rcases hwh with hw | hh
        · exact ⟨"KeyError: width",
            by simp [print_metadata, jget, hd, hs, hfr, hw, Bind.bind,
              Except.bind]⟩
        · cases hwv : skvs.lookup "width" with
          | none =>
            exact ⟨"KeyError: width",
              by simp [print_metadata, jget, hd, hs, hfr, hwv, Bind.bind,
                Except.bind]⟩
          | some wv =>
            exact ⟨"KeyError: height",
              by simp [print_metadata, jget, hd, hs, hfr, hwv, hh, Bind.bind,
                Except.bind]⟩
  · exact ⟨rfl, rfl⟩

/-- Witness for C9, at the simplified probe of the audio-first raw
probe. -/
theorem print_metadata_requires_dims_witness :
    ∃ e, print_metadata (.obj [("filename", .str "x.mp4"),
                 ("duration", .str "2.0"),
                 ("size", .str "5"), ("bit_rate", .str "9"),
                 ("creation_time", .null),
                 ("streams", .arr [
        JVal.obj [("codec_name", .str "aac"), ("codec_type", .str "audio"),
                  ("duration", .null), ("bit_rate", .null),
                  ("frame_rate", .null), ("color_space", .null),
                  ("color_range", .null)],
        JVal.obj [("codec_name", .null), ("codec_type", .str "video"),
                  ("duration", .null), ("bit_rate", .null),
                  ("frame_rate", .null), ("color_space", .null),
                  ("color_range", .null),
                  ("width", .num 640), ("height", .num 480)]])]) =
      .error e :=
  (print_metadata_requires_dims
    [("filename", .str "x.mp4"), ("duration", .str "2.0"),
     ("size", .str "5"), ("bit_rate", .str "9"), ("creation_time", .null),
     ("streams", .arr [
        JVal.obj [("codec_name", .str "aac"), ("codec_type", .str "audio"),
                  ("duration", .null), ("bit_rate", .null),
                  ("frame_rate", .null), ("color_space", .null),
                  ("color_range", .null)],
        JVal.obj [("codec_name", .null), ("codec_type", .str "video"),
                  ("duration", .null), ("bit_rate", .null),
                  ("frame_rate", .null), ("color_space", .null),
                  ("color_range", .null),
                  ("width", .num 640), ("height", .num 480)]])]
    [("codec_name", .str "aac"), ("codec_type", .str "audio"),
     ("duration", .null), ("bit_rate", .null), ("frame_rate", .null),
     ("color_space", .null), ("color_range", .null)]
    [JVal.obj [("codec_name", .null), ("codec_type", .str "video"),
               ("duration", .null), ("bit_rate", .null),
               ("frame_rate", .null), ("color_space", .null),
               ("color_range", .null),
               ("width", .num 640), ("height", .num 480)]]).1
    (by rfl) (Or.inl (by rfl))

end AglVideoUtils
